import Mathlib

/-!
Verification of the MuseAI creation-workflow core: the Gemini gateway
functions in src/services/geminiService.ts and the Studio controller
handlers in src/components/Studio.tsx, shallowly embedded in Lean.
Remote calls are modelled by an explicit outcome argument of type
Except Unit _, where Except.error stands for a thrown transport error
and Except.ok carries the remote response payload.
-/

/-- Mirror of the Theme interface in src/types.ts. -/
structure Theme where
  id : String
  name : String
  description : String
  vibe : String
  examplePrompts : List String
deriving DecidableEq

/-- Embeds the JavaScript test for a blank string: for a string s, the
guard written in the source as not s.trim() is true exactly when every
character of s is whitespace. -/
def isBlank (s : String) : Bool :=
  s.data.all Char.isWhitespace

/-- Embeds the regex replace of all whitespace by the empty string used
for the fallback hashtags in geminiService.ts line 185. -/
def stripWs (s : String) : String :=
  String.mk (s.data.filter (fun c => !c.isWhitespace))

/-- A character matched by the regex class of letters, digits and
underscore ([a-zA-Z0-9_]) in the hashtag pattern. -/
def isTagChar (c : Char) : Bool :=
  c.isAlpha || c.isDigit || c = '_'

/-- Left-to-right scan embedding the JavaScript global regex match for
the hashtag pattern (a hash sign followed by one or more word chars) in
geminiService.ts line 185.  The second argument is none while outside a
candidate match and some acc while inside one, acc holding the word
characters read so far in reverse. -/
def scanTags : List Char → Option (List Char) → List String
  | [], none => []
  | [], some acc =>
      if acc.isEmpty then [] else [String.mk ('#' :: acc.reverse)]
  | c :: rest, none =>
      if c = '#' then scanTags rest (some []) else scanTags rest none
  | c :: rest, some acc =>
      if isTagChar c then scanTags rest (some (c :: acc))
      else if acc.isEmpty then
        (if c = '#' then scanTags rest (some []) else scanTags rest none)
      else
        String.mk ('#' :: acc.reverse) ::
          (if c = '#' then scanTags rest (some []) else scanTags rest none)

/-- All maximal hashtag tokens of a text, in order: the embedding of
text.match with the global hashtag regex (null result becoming []). -/
def hashtagMatches (s : String) : List String :=
  scanTags s.data none

/-- A string of the exact lexical shape the hashtag regex matches: a
hash sign followed by a nonempty run of word characters. -/
def isHashtagToken (s : String) : Bool :=
  match s.data with
  | c :: cs => c = '#' && (!cs.isEmpty && cs.all isTagChar)
  | [] => false

/-- generateRefinedPrompt of geminiService.ts lines 36 to 66.  The
remote argument is the outcome of the generateContent call, Except.ok
carrying response.text (the empty string standing for an absent text,
which the source treats the same through the JavaScript or-else). -/
def generateRefinedPrompt (userInput : String) (theme : Theme)
    (museumName : String) (remote : Except Unit String) : String :=
  match remote with
  | .ok t =>
      if t.isEmpty then "An artistic interpretation of the theme." else t
  | .error _ =>
      "An artistic rendition of " ++ userInput ++ " in the style of "
        ++ theme.name ++ "."

/-- generateThemeImage of geminiService.ts lines 75 to 109.  The remote
argument carries, on success, the list of response parts, each part
being some data when it has inlineData and none otherwise; the source
scans the parts for the first inline image, wraps it in a data URL, and
returns null when no part carries one.  A thrown transport error is
rethrown unchanged. -/
def generateThemeImage (prompt : String)
    (remote : Except Unit (List (Option String))) :
    Except Unit (Option String) :=
  match remote with
  | .error e => .error e
  | .ok parts =>
      match parts.findSome? id with
      | some data => .ok (some ("data:image/png;base64," ++ data))
      | none => .ok none

/-- generateMuseumGuideDescription of geminiService.ts lines 120 to
149: returns response.text, a generic phrase when that text is blank,
and a fixed apology string when the call throws. -/
def generateMuseumGuideDescription (imageBase64DataUrl : String)
    (museumName : String) (themeName : String)
    (remote : Except Unit String) : String :=
  match remote with
  | .ok t => if t.isEmpty then "A fascinating piece of art." else t
  | .error _ => "I am unable to analyze this piece at the moment."

/-- generateSocialHashtags of geminiService.ts lines 159 to 191:
extracts hashtag tokens from response.text, falls back to three
deterministic tags when no token matches, truncates to 12, and on a
thrown error returns a two-tag fallback. -/
def generateSocialHashtags (imageBase64DataUrl : String)
    (museumName : String) (themeName : String)
    (remote : Except Unit String) : List String :=
  match remote with
  | .ok text =>
      let tags := hashtagMatches text
      let tags :=
        if tags.isEmpty then
          ["#" ++ stripWs museumName, "#" ++ stripWs themeName, "#MuseAI"]
        else tags
      tags.take 12
  | .error _ => ["#" ++ stripWs museumName, "#MuseAI"]

/-- generateSpeech of geminiService.ts lines 199 to 226: returns the
inline audio payload when present and null on absence or error. -/
def generateSpeech (text : String)
    (remote : Except Unit (Option String)) : Option String :=
  match remote with
  | .ok audio => audio
  | .error _ => none

/-- The component state of Studio.tsx lines 20 to 33, one field per
useState hook.  refinedPrompt uses the empty string for absence exactly
as the source does; error is the lastError of the session. -/
structure StudioState where
  userIdea : String
  refinedPrompt : String
  isRefining : Bool
  isGenerating : Bool
  generatedImage : Option String
  error : Option String
  hashtags : List String
  isSpeakingPrompt : Bool
  isSpeakingGuide : Bool
  statusMessage : String
deriving DecidableEq

/-- The initial state of Studio.tsx: every useState initialiser. -/
def initialState : StudioState :=
  { userIdea := ""
    refinedPrompt := ""
    isRefining := false
    isGenerating := false
    generatedImage := none
    error := none
    hashtags := []
    isSpeakingPrompt := false
    isSpeakingGuide := false
    statusMessage := "" }

/-- The effective prompt, Studio.tsx lines 64 and 129: refinedPrompt
when truthy (nonempty), else userIdea. -/
def effectivePrompt (s : StudioState) : String :=
  if s.refinedPrompt.isEmpty then s.userIdea else s.refinedPrompt

/-- The synchronous prologue of handleRefine, Studio.tsx lines 45 to
50: returns none (no remote call, state untouched) when the trimmed
userIdea is empty, else the state as it stands when the refine call is
issued. -/
def handleRefineStart (s : StudioState) : Option StudioState :=
  if isBlank s.userIdea then none
  else some { s with
    isRefining := true
    error := none
    statusMessage := "Refining your prompt..." }

/-- The continuation of handleRefine, Studio.tsx lines 52 to 60: store
the refined prompt, report success, drop the REFINING phase. -/
def handleRefineResolve (s : StudioState) (refined : String) : StudioState :=
  { s with
    refinedPrompt := refined
    statusMessage := "Prompt refined successfully."
    isRefining := false }

/-- The synchronous prologue of handleGenerate, Studio.tsx lines 63 to
72: returns none when the trimmed effective prompt is empty, else the
state as it stands when the image call is issued, paired with the
captured prompt promptToUse that the call is given. -/
def handleGenerateStart (s : StudioState) : Option (StudioState × String) :=
  let promptToUse := effectivePrompt s
  if isBlank promptToUse then none
  else some
    ({ s with
        isGenerating := true
        error := none
        generatedImage := none
        hashtags := []
        statusMessage := "Generating your artwork, please wait..." },
      promptToUse)

/-- The continuation of handleGenerate, Studio.tsx lines 74 to 94,
applied to the outcome of the awaited generateThemeImage call.  The
second component records the image for which a background hashtag fetch
is launched (some img on the success branch, none otherwise). -/
def handleGenerateResolve (s : StudioState)
    (outcome : Except Unit (Option String)) : StudioState × Option String :=
  match outcome with
  | .ok (some img) =>
      ({ s with
          generatedImage := some img
          statusMessage := "Artwork generated successfully."
          isGenerating := false },
        some img)
  | .ok none =>
      ({ s with
          error := some "No image data returned."
          statusMessage := "Failed to generate image."
          isGenerating := false },
        none)
  | .error _ =>
      ({ s with
          error := some "Failed to generate image. The creative muse is resting (API Error)."
          statusMessage := "Error generating image."
          isGenerating := false },
        none)

/-- The then-continuation of the background hashtag fetch, Studio.tsx
line 82: it receives only the tags and stores them unconditionally; the
image that initiated the fetch is not consulted and the current session
image is not compared against anything. -/
def hashtagThen (s : StudioState) (tags : List String) : StudioState :=
  { s with hashtags := tags }

/-- The synchronous prologue of handleSpeakPrompt, Studio.tsx lines 128
to 134: rejected when the effective prompt is empty or a prompt
narration is already in flight. -/
def handleSpeakPromptStart (s : StudioState) : Option StudioState :=
  if (effectivePrompt s).isEmpty || s.isSpeakingPrompt then none
  else some { s with
    isSpeakingPrompt := true
    statusMessage := "Reading prompt aloud." }

/-- The synchronous prologue of handleSpeakImage, Studio.tsx lines 147
to 152: rejected when no image is present or a guide narration is
already in flight. -/
def handleSpeakImageStart (s : StudioState) : Option StudioState :=
  if s.generatedImage.isNone || s.isSpeakingGuide then none
  else some { s with
    isSpeakingGuide := true
    statusMessage := "Generating audio guide description..." }

/-- The change handler of the user-idea textarea, Studio.tsx line 210:
it sets userIdea and nothing else. -/
def editIdea (s : StudioState) (v : String) : StudioState :=
  { s with userIdea := v }

/-- The disabled status of the user-idea textarea, Studio.tsx lines 204
to 211: the element carries no disabled attribute in any state. -/
def userIdeaFieldDisabled (s : StudioState) : Bool :=
  false

/-- The mount effect of Studio.tsx lines 36 to 39: userIdea is set to
examplePrompts[k] where k is the floor of a random draw scaled by the
length of theme.examplePrompts.  The index is passed explicitly; when
it is out of range the source would store undefined, modelled here by
the getD default. -/
def mountStudio (theme : Theme) (k : Nat) (s : StudioState) : StudioState :=
  { s with userIdea := theme.examplePrompts.getD k "" }

/-- The browser facilities playAudio consumes, geminiService.ts lines
236 to 267, each modelled as a fallible function: atob decoding base64
to a byte list, decodeAudioData decoding the container to samples, and
starting playback on the shared context. -/
structure AudioEnv where
  atob : String → Except Unit (List Nat)
  decodeAudioData : List Nat → Except Unit (List Int)
  startPlayback : List Int → Except Unit Unit

/-- Outcome of a playAudio call: playback ran, or a failure was caught
and logged. -/
inductive PlayOutcome where
  | completed : PlayOutcome
  | failedLogged : PlayOutcome
deriving DecidableEq

/-- The body of the try block of playAudio, geminiService.ts lines 237
to 262: base64 decode, audio decode, start playback; any step may
throw. -/
def playAudioBody (env : AudioEnv) (base64Audio : String) : Except Unit Unit := do
  let bytes ← env.atob base64Audio
  let buffer ← env.decodeAudioData bytes
  env.startPlayback buffer

/-- playAudio of geminiService.ts lines 236 to 267: the whole body is
wrapped in try-catch, the catch only logging, so the function itself
returns normally on either path. -/
def playAudio (env : AudioEnv) (base64Audio : String) :
    Except Unit PlayOutcome :=
  match playAudioBody env base64Audio with
  | .ok _ => .ok .completed
  | .error _ => .ok .failedLogged

/-- Concrete Theme record copied from the Louvre entry of
src/constants.ts. -/
def renaissanceTheme : Theme :=
  { id := "renaissance-classicism"
    name := "Renaissance Classicism"
    description := "Balanced compositions, realistic anatomy, and idealized beauty inspired by antiquity."
    vibe := "Harmonious, grand, polished, golden light"
    examplePrompts :=
      ["A majestic banquet hall with soft, golden candlelight and symmetrical arches.",
       "Portrait of a noble figure with mysterious smile, sfumato technique, misty landscape background."] }

theorem scanTags_sound (l : List Char) : ∀ (st : Option (List Char)),
    (∀ acc, st = some acc → acc.all isTagChar = true) →
    (scanTags l st).all isHashtagToken = true := by
  induction l with
  | nil =>
    intro st h
    match st with
    | none => rfl
    | some acc =>
      have hacc := h acc rfl
      by_cases he : acc.isEmpty = true
      · simp [scanTags, he]
      · simp only [Bool.not_eq_true] at he
        have hne : acc ≠ [] := List.isEmpty_eq_false.mp he
        simp [scanTags, he, isHashtagToken, hacc, hne]
  | cons c rest ih =>
    intro st h
    match st with
    | none =>
      by_cases hc : c = '#'
      · simp only [scanTags, hc, if_pos rfl]
        exact ih (some []) (by intro acc hacc; cases hacc; rfl)
      · simp only [scanTags, if_neg hc]
        exact ih none (by intro acc hacc; cases hacc)
    | some acc =>
      have hacc := h acc rfl
      by_cases ht : isTagChar c = true
      · simp only [scanTags, if_pos ht]
        refine ih (some (c :: acc)) ?_
        intro acc2 hacc2
        cases hacc2
        simp [List.all_cons, ht, hacc]
      · by_cases he : acc.isEmpty = true
        · simp only [scanTags, if_neg ht, if_pos he]
          by_cases hc : c = '#'
          · simp only [if_pos hc]
            exact ih (some []) (by intro acc2 hacc2; cases hacc2; rfl)
          · simp only [if_neg hc]
            exact ih none (by intro acc2 hacc2; cases hacc2)
        · simp only [Bool.not_eq_true] at he
          have hne : acc ≠ [] := List.isEmpty_eq_false.mp he
          have htail :
              (if c = '#' then scanTags rest (some []) else
                scanTags rest none).all isHashtagToken = true := by
            by_cases hc : c = '#'
            · simp only [if_pos hc]
              exact ih (some []) (by intro acc2 hacc2; cases hacc2; rfl)
            · simp only [if_neg hc]
              exact ih none (by intro acc2 hacc2; cases hacc2)
          simp only [scanTags, if_neg ht, he, Bool.false_eq_true,
            if_false, List.all_cons, htail, Bool.and_true]
          simp [isHashtagToken, hacc, hne]

theorem hashtagMatches_sound (s : String) :
    (hashtagMatches s).all isHashtagToken = true :=
  scanTags_sound s.data none (by intro acc hacc; cases hacc)

theorem generateSocialHashtags_length_le (img M T : String)
    (remote : Except Unit String) :
    (generateSocialHashtags img M T remote).length ≤ 12 := by
  match remote with
  | .error _ => simp [generateSocialHashtags]
  | .ok text =>
    simp only [generateSocialHashtags]
    split <;> exact le_trans (List.length_take_le 12 _) (le_refl 12)

/-- C4: for every non-empty userIdea, generateRefinedPrompt never
returns the empty string, whatever the remote outcome; and on a
transport failure it returns exactly the deterministic fallback built
as the rendition phrase around the user idea and the theme name, so the
fallback contains both. -/
theorem c4_refine_nonempty_and_fallback (userInput : String) (theme : Theme)
    (museumName : String) (remote : Except Unit String)
    (h : userInput ≠ "") :
    generateRefinedPrompt userInput theme museumName remote ≠ "" ∧
    generateRefinedPrompt userInput theme museumName (.error ()) =
      "An artistic rendition of " ++ userInput ++ " in the style of "
        ++ theme.name ++ "." := by
  refine ⟨?_, rfl⟩
  match remote with
  | .ok t =>
    by_cases he : t.isEmpty = true
    · simp [generateRefinedPrompt, he]
    · simp only [Bool.not_eq_true] at he
      simp only [generateRefinedPrompt, he, Bool.false_eq_true, if_false]
      intro heq
      rw [heq] at he
      exact absurd he (by decide)
  | .error e =>
    simp only [generateRefinedPrompt]
    intro heq
    have hlen := congrArg String.length heq
    simp only [String.length_append] at hlen
    have h1 : ("An artistic rendition of " : String).length = 25 := rfl
    have h0 : ("" : String).length = 0 := rfl
    rw [h1, h0] at hlen
    omega

/-- C4 witness: the theorem applied at a concrete non-empty user idea,
the Louvre theme and a transport failure. -/
theorem c4_refine_nonempty_and_fallback_witness :
    generateRefinedPrompt "a cat" renaissanceTheme "The Louvre" (.error ()) ≠ "" ∧
    generateRefinedPrompt "a cat" renaissanceTheme "The Louvre" (.error ()) =
      "An artistic rendition of " ++ "a cat" ++ " in the style of "
        ++ renaissanceTheme.name ++ "." :=
  c4_refine_nonempty_and_fallback "a cat" renaissanceTheme "The Louvre"
    (.error ()) (by decide)

/-- Theme record used by the C5 counterexample. -/
def c5theme : Theme :=
  { id := "baroque", name := "Baroque", description := "", vibe := ""
    examplePrompts := [] }

/-- C5 counterexample: at concrete inputs, the empty-result fallback
and the transport-failure fallback are different values, both for
generateRefinedPrompt (generic phrase versus rendition phrase) and for
generateSocialHashtags (three tags versus two tags), so an empty remote
result is not treated identically to a transport failure. -/
theorem c5_counterexample :
    generateRefinedPrompt "a cat" c5theme "The Louvre" (.ok "") =
      "An artistic interpretation of the theme." ∧
    generateRefinedPrompt "a cat" c5theme "The Louvre" (.error ()) =
      "An artistic rendition of a cat in the style of Baroque." ∧
    generateRefinedPrompt "a cat" c5theme "The Louvre" (.ok "") ≠
      generateRefinedPrompt "a cat" c5theme "The Louvre" (.error ()) ∧
    generateMuseumGuideDescription "img" "The Louvre" "Baroque" (.ok "") ≠
      generateMuseumGuideDescription "img" "The Louvre" "Baroque" (.error ()) ∧
    generateSocialHashtags "img" "The Louvre" "Baroque" (.ok "") =
      ["#TheLouvre", "#Baroque", "#MuseAI"] ∧
    generateSocialHashtags "img" "The Louvre" "Baroque" (.error ()) =
      ["#TheLouvre", "#MuseAI"] := by decide

/-- C5 (amended): for each of generateRefinedPrompt,
generateMuseumGuideDescription and generateSocialHashtags, an empty
remote result is absorbed into a deterministic fallback just as a
transport failure is, but the two cases yield different fallback values
per operation; for generateThemeImage an empty response yields an
absent image while a transport failure propagates, and the controller
records an error in both cases. -/
theorem c5_empty_vs_transport (img userInput M T p : String) (theme : Theme)
    (s : StudioState) :
    generateRefinedPrompt userInput theme M (.ok "") =
      "An artistic interpretation of the theme." ∧
    generateRefinedPrompt userInput theme M (.error ()) =
      "An artistic rendition of " ++ userInput ++ " in the style of "
        ++ theme.name ++ "." ∧
    generateMuseumGuideDescription img M T (.ok "") =
      "A fascinating piece of art." ∧
    generateMuseumGuideDescription img M T (.error ()) =
      "I am unable to analyze this piece at the moment." ∧
    generateSocialHashtags img M T (.ok "") =
      ["#" ++ stripWs M, "#" ++ stripWs T, "#MuseAI"] ∧
    generateSocialHashtags img M T (.error ()) =
      ["#" ++ stripWs M, "#MuseAI"] ∧
    generateThemeImage p (.ok []) = .ok none ∧
    generateThemeImage p (.error ()) = .error () ∧
    (handleGenerateResolve s (.ok none)).1.error.isSome = true ∧
    (handleGenerateResolve s (.error ())).1.error.isSome = true :=
  ⟨rfl, rfl, rfl, rfl, rfl, rfl, rfl, rfl, rfl, rfl⟩

/-- C6: hashtag extraction and fallback.  When the remote text contains
no token of the hashtag lexical pattern the result is exactly the three
deterministic fallback tags (museum and theme names with whitespace
stripped, and the brand tag); when it contains some, the result is the
extracted token list truncated to 12; every extracted token has the
hashtag lexical shape; and in every case, transport failure included,
the result has at most 12 entries. -/
theorem c6_hashtag_extraction (img M T text1 text2 : String)
    (h1 : hashtagMatches text1 = [])
    (h2 : hashtagMatches text2 ≠ []) :
    generateSocialHashtags img M T (.ok text1) =
      ["#" ++ stripWs M, "#" ++ stripWs T, "#MuseAI"] ∧
    generateSocialHashtags img M T (.ok text2) =
      (hashtagMatches text2).take 12 ∧
    (hashtagMatches text2).all isHashtagToken = true ∧
    (generateSocialHashtags img M T (.ok text1)).length ≤ 12 ∧
    (generateSocialHashtags img M T (.ok text2)).length ≤ 12 ∧
    (generateSocialHashtags img M T (.error ())).length ≤ 12 := by
  refine ⟨?_, ?_, hashtagMatches_sound text2,
    generateSocialHashtags_length_le img M T _,
    generateSocialHashtags_length_le img M T _,
    generateSocialHashtags_length_le img M T _⟩
  · simp [generateSocialHashtags, h1]
  · simp [generateSocialHashtags, h2]

/-- C6 witness: the theorem applied at a text with no hashtag token and
a text with three of them. -/
theorem c6_hashtag_extraction_witness :
    hashtagMatches "no tags at all" = [] ∧
    hashtagMatches "#Baroque and #Muse_AI 4ever #1" ≠ [] ∧
    (generateSocialHashtags "img" "The Louvre" "Baroque Gold"
        (.ok "no tags at all") =
      ["#" ++ stripWs "The Louvre", "#" ++ stripWs "Baroque Gold", "#MuseAI"] ∧
    generateSocialHashtags "img" "The Louvre" "Baroque Gold"
        (.ok "#Baroque and #Muse_AI 4ever #1") =
      (hashtagMatches "#Baroque and #Muse_AI 4ever #1").take 12 ∧
    (hashtagMatches "#Baroque and #Muse_AI 4ever #1").all isHashtagToken = true ∧
    (generateSocialHashtags "img" "The Louvre" "Baroque Gold"
        (.ok "no tags at all")).length ≤ 12 ∧
    (generateSocialHashtags "img" "The Louvre" "Baroque Gold"
        (.ok "#Baroque and #Muse_AI 4ever #1")).length ≤ 12 ∧
    (generateSocialHashtags "img" "The Louvre" "Baroque Gold"
        (.error ())).length ≤ 12) :=
  ⟨by decide, by decide,
    c6_hashtag_extraction "img" "The Louvre" "Baroque Gold"
      "no tags at all" "#Baroque and #Muse_AI 4ever #1"
      (by decide) (by decide)⟩

/-- C3: whenever generateThemeImage throws, and likewise when it
resolves with an absent image, the handleGenerate continuation leaves
generatedImage absent, sets the session error, and drops the GENERATING
phase, for any state reached through the handleGenerate prologue. -/
theorem c3_generate_failure_resets (s s1 : StudioState) (p : String)
    (h : handleGenerateStart s = some (s1, p)) :
    ((handleGenerateResolve s1 (.error ())).1.generatedImage = none ∧
     (handleGenerateResolve s1 (.error ())).1.error.isSome = true ∧
     (handleGenerateResolve s1 (.error ())).1.isGenerating = false) ∧
    ((handleGenerateResolve s1 (.ok none)).1.generatedImage = none ∧
     (handleGenerateResolve s1 (.ok none)).1.error.isSome = true ∧
     (handleGenerateResolve s1 (.ok none)).1.isGenerating = false) := by
  simp only [handleGenerateStart] at h
  split at h
  · simp at h
  · rw [Option.some.injEq, Prod.mk.injEq] at h
    obtain ⟨hs1, hp⟩ := h
    subst hs1
    simp [handleGenerateResolve]

/-- Concrete pre-invocation state for the C3 witness. -/
def c3s : StudioState := { initialState with userIdea := "a cat" }

/-- The state the handleGenerate prologue produces from c3s. -/
def c3s1 : StudioState :=
  { c3s with
    isGenerating := true
    error := none
    generatedImage := none
    hashtags := []
    statusMessage := "Generating your artwork, please wait..." }

/-- C3 witness: the theorem applied at the concrete state c3s. -/
theorem c3_generate_failure_resets_witness :
    ((handleGenerateResolve c3s1 (.error ())).1.generatedImage = none ∧
     (handleGenerateResolve c3s1 (.error ())).1.error.isSome = true ∧
     (handleGenerateResolve c3s1 (.error ())).1.isGenerating = false) ∧
    ((handleGenerateResolve c3s1 (.ok none)).1.generatedImage = none ∧
     (handleGenerateResolve c3s1 (.ok none)).1.error.isSome = true ∧
     (handleGenerateResolve c3s1 (.ok none)).1.isGenerating = false) :=
  c3_generate_failure_resets c3s c3s1 "a cat" (by decide)

/-- C7: whenever the handleGenerate prologue proceeds, the state it
hands to the remote call has generatedImage and hashtags both already
cleared (a single synchronous step, before the call is issued), and the
prompt it captures is the effective prompt, refinedPrompt if present
else userIdea, exactly as it stood at invocation time; the prologue
only proceeds when that effective prompt is not blank. -/
theorem c7_generate_clears_before_call (s s1 : StudioState) (p : String)
    (h : handleGenerateStart s = some (s1, p)) :
    s1.generatedImage = none ∧ s1.hashtags = [] ∧ s1.isGenerating = true ∧
    p = effectivePrompt s ∧ isBlank (effectivePrompt s) = false := by
  simp only [handleGenerateStart] at h
  split at h
  · simp at h
  · rename_i hcond
    rw [Option.some.injEq, Prod.mk.injEq] at h
    obtain ⟨hs1, hp⟩ := h
    subst hs1
    simp only [Bool.not_eq_true] at hcond
    exact ⟨rfl, rfl, rfl, hp.symm, hcond⟩

/-- Concrete pre-invocation state for the C7 witness, with a refined
prompt present so the capture prefers it over the raw idea. -/
def c7s : StudioState :=
  { initialState with userIdea := "idea", refinedPrompt := "a grand hall" }

/-- The state the handleGenerate prologue produces from c7s. -/
def c7s1 : StudioState :=
  { c7s with
    isGenerating := true
    error := none
    generatedImage := none
    hashtags := []
    statusMessage := "Generating your artwork, please wait..." }

/-- C7 witness: the theorem applied at the concrete state c7s. -/
theorem c7_generate_clears_before_call_witness :
    c7s1.generatedImage = none ∧ c7s1.hashtags = [] ∧
    c7s1.isGenerating = true ∧
    "a grand hall" = effectivePrompt c7s ∧
    isBlank (effectivePrompt c7s) = false :=
  c7_generate_clears_before_call c7s c7s1 "a grand hall" (by decide)

/-- State with the GENERATING phase active and a nonempty idea, for the
C2 counterexample. -/
def c2s : StudioState :=
  { initialState with userIdea := "a cat", isGenerating := true }

/-- The state handleRefine produces from c2s when it proceeds. -/
def c2s1 : StudioState :=
  { c2s with
    isRefining := true
    error := none
    statusMessage := "Refining your prompt..." }

/-- C2 counterexample: with the GENERATING phase active, invoking
RefinePrompt is not a no-op: the handler carries no cross-phase guard,
so it proceeds, issues the remote call and mutates the session beyond
the status message (isRefining flips to true). -/
theorem c2_counterexample :
    c2s.isGenerating = true ∧ c2s.isRefining = false ∧
    handleRefineStart c2s = some c2s1 ∧ c2s1.isRefining = true ∧
    c2s1 ≠ c2s := by decide

/-- C2 (amended): the handlers reject an invocation only on their own
guards: RefinePrompt when the trimmed idea is empty, GenerateArt when
the trimmed effective prompt is empty, and each narration action while
its own narration flag is set; a rejected invocation issues no remote
call and leaves the state unchanged (the prologue returns none).  No
handler guards against the other three phases being active. -/
theorem c2_per_action_guards (s : StudioState) :
    (isBlank s.userIdea = true → handleRefineStart s = none) ∧
    (isBlank (effectivePrompt s) = true → handleGenerateStart s = none) ∧
    (s.isSpeakingPrompt = true → handleSpeakPromptStart s = none) ∧
    (s.isSpeakingGuide = true → handleSpeakImageStart s = none) := by
  refine ⟨fun h => ?_, fun h => ?_, fun h => ?_, fun h => ?_⟩ <;>
    simp [handleRefineStart, handleGenerateStart, handleSpeakPromptStart,
      handleSpeakImageStart, h]

/-- State satisfying all four rejection guards at once, for the C2
witness. -/
def c2gs : StudioState :=
  { initialState with isSpeakingPrompt := true, isSpeakingGuide := true }

/-- C2 witness: the amended theorem applied at the concrete state c2gs,
each guard hypothesis discharged there. -/
theorem c2_per_action_guards_witness :
    handleRefineStart c2gs = none ∧ handleGenerateStart c2gs = none ∧
    handleSpeakPromptStart c2gs = none ∧ handleSpeakImageStart c2gs = none :=
  ⟨(c2_per_action_guards c2gs).1 (by decide),
   (c2_per_action_guards c2gs).2.1 (by decide),
   (c2_per_action_guards c2gs).2.2.1 (by decide),
   (c2_per_action_guards c2gs).2.2.2 (by decide)⟩

/-- Initial session of the C1 interleaving. -/
def c1s0 : StudioState := { initialState with userIdea := "a cat on a throne" }

/-- First GenerateArt invocation of the C1 interleaving, run to its
continuation with image imgA: the second component records that a
background hashtag fetch was launched for imgA. -/
def c1mid : StudioState × Option String :=
  match handleGenerateStart c1s0 with
  | none => (c1s0, none)
  | some (s1, _) => handleGenerateResolve s1 (.ok (some "imgA"))

/-- Continuation of the C1 interleaving: while the imgA hashtag fetch
is still pending, GenerateArt is invoked again and resolves with image
imgB; afterwards the pending fetch for imgA resolves and its
then-continuation commits its tags. -/
def c1run : StudioState :=
  match handleGenerateStart c1mid.1 with
  | none => c1mid.1
  | some (s3, _) =>
      hashtagThen (handleGenerateResolve s3 (.ok (some "imgB"))).1
        ["#GothicCat"]

/-- C1: the staleness guard the claim describes does not exist.  In the
interleaving where a second GenerateArt completes (image imgB current)
while the first invocation's hashtag fetch, launched for imgA, is still
pending, the late-arriving result of that fetch is written into the
session: the then-continuation stores the tags without comparing
against the image reference that initiated the call. -/
theorem c1_stale_hashtags_written :
    c1mid.2 = some "imgA" ∧
    c1mid.1.generatedImage = some "imgA" ∧
    c1run.generatedImage = some "imgB" ∧
    c1run.hashtags = ["#GothicCat"] := by decide

/-- Mid-generation state with every field populated, for the C8
counterexample. -/
def c8s : StudioState :=
  { initialState with
    userIdea := "old idea"
    refinedPrompt := "rp"
    isGenerating := true
    generatedImage := some "img"
    hashtags := ["#a"]
    error := some "e" }

/-- C8 counterexample: userIdea is editable even mid-generation — the
textarea is never disabled and the change handler applies while the
GENERATING phase is active — so the claimed except-mid-generation
restriction does not hold on the code. -/
theorem c8_counterexample :
    c8s.isGenerating = true ∧
    userIdeaFieldDisabled c8s = false ∧
    (editIdea c8s "new idea").userIdea = "new idea" ∧
    (editIdea c8s "new idea").refinedPrompt = "rp" := by decide

/-- C8 (amended): EditIdea sets userIdea directly and changes no other
session field — in particular it never clears refinedPrompt,
generatedImage, hashtags, or the error — and userIdea is user-editable
at all times, mid-generation included, since the field is never
disabled. -/
theorem c8_edit_idea_frame (s : StudioState) (v : String) :
    (editIdea s v).userIdea = v ∧
    (editIdea s v).refinedPrompt = s.refinedPrompt ∧
    (editIdea s v).generatedImage = s.generatedImage ∧
    (editIdea s v).hashtags = s.hashtags ∧
    (editIdea s v).error = s.error ∧
    (editIdea s v).isRefining = s.isRefining ∧
    (editIdea s v).isGenerating = s.isGenerating ∧
    (editIdea s v).isSpeakingPrompt = s.isSpeakingPrompt ∧
    (editIdea s v).isSpeakingGuide = s.isSpeakingGuide ∧
    (editIdea s v).statusMessage = s.statusMessage ∧
    userIdeaFieldDisabled s = false :=
  ⟨rfl, rfl, rfl, rfl, rfl, rfl, rfl, rfl, rfl, rfl, rfl⟩

/-- C9: for every base64 input and every behaviour of the browser
decoding and playback facilities, playAudio returns normally: a failure
anywhere in the body is caught and logged, never propagated to the
caller as an exception. -/
theorem c9_play_audio_completes (env : AudioEnv) (b64 : String) :
    playAudio env b64 = .ok PlayOutcome.completed ∨
    playAudio env b64 = .ok PlayOutcome.failedLogged := by
  simp only [playAudio]
  split
  · exact Or.inl rfl
  · exact Or.inr rfl

/-- C10: on Studio mount, for every theme whose examplePrompts is
non-empty (the drawn index being in range), the initial userIdea is a
member of theme.examplePrompts. -/
theorem c10_mount_uses_example_prompt (theme : Theme) (s : StudioState)
    (k : Nat) (h : k < theme.examplePrompts.length) :
    (mountStudio theme k s).userIdea ∈ theme.examplePrompts := by
  simp only [mountStudio, List.getD_eq_getElem?_getD,
    List.getElem?_eq_getElem h, Option.getD_some]
  exact List.getElem_mem h

/-- C10 witness: the theorem applied at the Louvre renaissance theme,
whose example-prompt list is non-empty, with the drawn index 0. -/
theorem c10_mount_uses_example_prompt_witness :
    0 < renaissanceTheme.examplePrompts.length ∧
    (mountStudio renaissanceTheme 0 initialState).userIdea ∈
      renaissanceTheme.examplePrompts :=
  ⟨by decide, c10_mount_uses_example_prompt renaissanceTheme initialState 0
    (by decide)⟩
